import Mathlib

/-!
Shallow embedding of `src/polygon_sdk.py` (class `PolygonSDK`).

The SDK is a thin wrapper around the `web3` dependency.  Every call into the
dependency is modelled by an oracle field of `Web3Env` returning either a value
or a raised exception kind, and each SDK method is a Lean function returning a
`PyM` value: the Python result (normal return or propagated exception), the
trace of dependency calls made, and the log lines emitted.  Python mutable
object state does not occur in the source (no method assigns to `self`), which
the `..._self_after` definitions record explicitly.

Exception messages carried by Python exception objects are abstracted to the
kind of the exception; `str(e)` is modelled by `excMsg`.
-/

set_option autoImplicit false

/-- Kinds of Python exceptions that can arise in the dependency.
`invalidAddress` models `web3.exceptions.InvalidAddress` and `jsonDecodeError`
models `json.JSONDecodeError`; both are subclasses of `ValueError` in Python,
which `isValueError` records.  `blockNotFound` and `transactionNotFound` are
the dedicated `web3.exceptions` classes imported by the source. -/
inductive ExcKind where
  | valueError
  | invalidAddress
  | jsonDecodeError
  | blockNotFound
  | transactionNotFound
  | connectionError
  | typeError
  | contractLogicError
  | validationError
  | otherError
  deriving DecidableEq, Repr

/-- Which exception kinds an `except ValueError` clause catches: `ValueError`
itself and its subclasses. -/
def isValueError : ExcKind → Bool
  | .valueError => true
  | .invalidAddress => true
  | .jsonDecodeError => true
  | _ => false

/-- Which exception kinds an `except BlockNotFound` clause catches. -/
def isBlockNotFound : ExcKind → Bool
  | .blockNotFound => true
  | _ => false

/-- Which exception kinds an `except TransactionNotFound` clause catches. -/
def isTransactionNotFound : ExcKind → Bool
  | .transactionNotFound => true
  | _ => false

/-- Which exception kinds an `except Exception` clause catches: all the kinds
modelled here (all are subclasses of `Exception`). -/
def catchAll : ExcKind → Bool := fun _ => true

/-- Stand-in for Python `str(e)` when an exception is interpolated into a log
message; the actual message text is opaque to the SDK. -/
def excMsg : ExcKind → String
  | .valueError => "ValueError"
  | .invalidAddress => "InvalidAddress"
  | .jsonDecodeError => "JSONDecodeError"
  | .blockNotFound => "BlockNotFound"
  | .transactionNotFound => "TransactionNotFound"
  | .connectionError => "ConnectionError"
  | .typeError => "TypeError"
  | .contractLogicError => "ContractLogicError"
  | .validationError => "ValidationError"
  | .otherError => "Exception"

/-- Decoded Python values passed as contract-call arguments or returned by a
contract call. -/
inductive PyVal where
  | int (n : Int)
  | str (s : String)
  | bool (b : Bool)
  deriving DecidableEq, Repr

/-- One input/output parameter of an ABI function entry, as in the JSON the
source builds: an object with `name` and `type` keys. -/
structure AbiParam where
  name : String
  type : String
  deriving DecidableEq, Repr

/-- One function entry of a contract ABI, with the exact keys (in order) used
by the object literal in `get_erc20_balance`. -/
structure AbiFunctionEntry where
  constant : Bool
  inputs : List AbiParam
  name : String
  outputs : List AbiParam
  payable : Bool
  stateMutability : String
  type : String
  deriving DecidableEq, Repr

/-- A parsed contract ABI: a JSON array of function entries. -/
abbrev Abi := List AbiFunctionEntry

/-- Block record returned by the node; opaque to the SDK. -/
structure Block where
  raw : String
  deriving DecidableEq, Repr

/-- Transaction record returned by the node; opaque to the SDK. -/
structure TxRecord where
  raw : String
  deriving DecidableEq, Repr

/-- Account object derived from a private key; the SDK only reads `.address`. -/
structure Account where
  address : String
  deriving DecidableEq, Repr

/-- Signed transaction; the SDK only reads `.rawTransaction` (raw bytes). -/
structure SignedTx where
  rawTransaction : List Nat
  deriving DecidableEq, Repr

/-- Byte value with a `.hex()` method, as returned by `sendRawTransaction`. -/
structure HexBytes where
  hex : String
  deriving DecidableEq, Repr

/-- The transaction mapping the SDK assembles.  Absent dictionary keys are
modelled by `none` defaults.  (`to_addr` models the `'to'` key; `to` is a
reserved word in Lean.) -/
structure TxDict where
  chainId : Option Nat := none
  to_addr : Option String := none
  value : Option Int := none
  data : Option String := none
  gas : Nat
  gasPrice : Nat
  nonce : Nat
  deriving DecidableEq, Repr

/-- Block identifier: a block number or the symbolic default `'latest'`. -/
inductive BlockId where
  | num (n : Nat)
  | latest
  deriving DecidableEq, Repr

/-- Rendering of a block identifier inside an f-string. -/
def BlockId.render : BlockId → String
  | .num n => toString n
  | .latest => "latest"

/-- Log levels used by the source's `logger` calls. -/
inductive LogLevel where
  | info
  | error
  deriving DecidableEq, Repr

/-- One emitted log line. -/
structure LogEntry where
  level : LogLevel
  msg : String
  deriving DecidableEq, Repr

/-- One call into the `web3`/`json` dependency, with the arguments the SDK
passed.  These form the observable trace of a method invocation. -/
inductive DepCall where
  | getBlock (b : BlockId)
  | getTransaction (h : String)
  | getBalance (a : String)
  | getTransactionCount (a : String)
  | privateKeyToAccount (pk : String)
  | signTransaction (t : TxDict) (pk : String)
  | sendRawTransaction (raw : List Nat)
  | jsonLoads (s : String)
  | contractNew (addr : String) (abi : Abi)
  | getFunctionByName (addr : String) (abi : Abi) (fname : String)
  | applyArgs (addr : String) (abi : Abi) (fname : String) (args : List PyVal)
  | fnCall (addr : String) (abi : Abi) (fname : String) (args : List PyVal)
  | buildTransaction (addr : String) (abi : Abi) (fname : String)
      (args : List PyVal) (params : TxDict)
  deriving DecidableEq, Repr

/-- Whether a dependency call is a `getTransactionCount` (nonce) query. -/
def DepCall.isNonceQuery : DepCall → Bool
  | .getTransactionCount _ => true
  | _ => false

/-- Outcome of one Python expression: a value, or a raised exception. -/
inductive PyResult (α : Type) where
  | ok (v : α)
  | exc (e : ExcKind)
  deriving DecidableEq, Repr

/-- Whether a result is a normal value (no exception propagated). -/
def PyResult.isOk {α : Type} : PyResult α → Bool
  | .ok _ => true
  | .exc _ => false

/-- Result of running a method body: the Python result, the trace of
dependency calls, and the log lines emitted, in order. -/
structure PyM (α : Type) where
  res : PyResult α
  calls : List DepCall
  logs : List LogEntry
  deriving DecidableEq, Repr

/-- A pure Python expression: no dependency call, no log. -/
def pyret {α : Type} (a : α) : PyM α := ⟨.ok a, [], []⟩

/-- One call into the dependency with outcome `r`, recorded in the trace. -/
def pyCall {α : Type} (c : DepCall) (r : PyResult α) : PyM α := ⟨r, [c], []⟩

/-- A `logger` call. -/
def pyLog (lv : LogLevel) (s : String) : PyM Unit := ⟨.ok (), [], [⟨lv, s⟩]⟩

/-- Sequencing of Python statements: a raised exception aborts the rest. -/
def pyBind {α β : Type} (m : PyM α) (f : α → PyM β) : PyM β :=
  match m with
  | ⟨.ok a, cs, ls⟩ =>
    match f a with
    | ⟨r, cs2, ls2⟩ => ⟨r, cs ++ cs2, ls ++ ls2⟩
  | ⟨.exc e, cs, ls⟩ => ⟨.exc e, cs, ls⟩

/-- A `try: return BODY except E as e: logger.error(msg e); return None`
block: `caught` is the class test of the `except` clause and `msg` the error
message built from the exception. -/
def pyTry {α : Type} (caught : ExcKind → Bool) (msg : ExcKind → String)
    (m : PyM α) : PyM (Option α) :=
  match m with
  | ⟨.ok a, cs, ls⟩ => ⟨.ok (some a), cs, ls⟩
  | ⟨.exc e, cs, ls⟩ =>
    if caught e then ⟨.ok none, cs, ls ++ [⟨.error, msg e⟩]⟩
    else ⟨.exc e, cs, ls⟩

/-- `self.web3.toWei(n, 'gwei')`: gwei to wei conversion. -/
def toWei_gwei (n : Nat) : Nat := n * 1000000000

/-- Oracle view of the `web3` dependency (plus `json.loads`): each field gives
the outcome of one kind of dependency call.  Contract objects and bound
contract functions are identified by the data they were built from, which is
exactly what the SDK passes along. -/
structure Web3Env where
  isConnected : Bool
  eth_getBlock : BlockId → PyResult Block
  eth_getTransaction : String → PyResult TxRecord
  eth_getBalance : String → PyResult Int
  eth_getTransactionCount : String → PyResult Nat
  privateKeyToAccount : String → PyResult Account
  signTransaction : TxDict → String → PyResult SignedTx
  sendRawTransaction : List Nat → PyResult HexBytes
  jsonLoads : String → PyResult Abi
  contractNew : String → Abi → PyResult Unit
  get_function_by_name : String → Abi → String → PyResult Unit
  applyArgs : String → Abi → String → List PyVal → PyResult Unit
  fn_call : String → Abi → String → List PyVal → PyResult PyVal
  buildTransaction : String → Abi → String → List PyVal → TxDict → PyResult TxDict

/-- The SDK instance state: exactly the two attributes `__init__` assigns. -/
structure PolygonSDK where
  provider_url : String
  web3 : Web3Env

namespace PolygonSDK

/-- `__init__(self, provider_url)`: store the URL and the `Web3` handle, raise
`ConnectionError` if `isConnected()` is false, else log the connection.
Returns the constructed instance (or the propagated exception) together with
the log lines emitted. -/
def init (provider_url : String) (w : Web3Env) :
    PyResult PolygonSDK × List LogEntry :=
  if w.isConnected then
    (.ok { provider_url := provider_url, web3 := w },
     [⟨.info, "Connected to Polygon provider: " ++ provider_url⟩])
  else
    (.exc .connectionError, [])

/-- `get_block(self, block_number='latest')`. -/
def get_block (sdk : PolygonSDK) (block_number : BlockId) : PyM (Option Block) :=
  pyTry isBlockNotFound (fun _ => "Block not found: " ++ block_number.render)
    (pyCall (.getBlock block_number) (sdk.web3.eth_getBlock block_number))

/-- `get_transaction(self, tx_hash)`. -/
def get_transaction (sdk : PolygonSDK) (tx_hash : String) : PyM (Option TxRecord) :=
  pyTry isTransactionNotFound (fun _ => "Transaction not found: " ++ tx_hash)
    (pyCall (.getTransaction tx_hash) (sdk.web3.eth_getTransaction tx_hash))

/-- `get_balance(self, address)`. -/
def get_balance (sdk : PolygonSDK) (address : String) : PyM (Option Int) :=
  pyTry isValueError
    (fun e => "Error getting balance for " ++ address ++ ": " ++ excMsg e)
    (pyCall (.getBalance address) (sdk.web3.eth_getBalance address))

/-- `send_transaction(self, private_key, to_address, amount_wei)`. -/
def send_transaction (sdk : PolygonSDK) (private_key to_address : String)
    (amount_wei : Int) : PyM (Option String) :=
  pyTry isValueError (fun e => "Transaction error: " ++ excMsg e)
    (pyBind (pyCall (.privateKeyToAccount private_key)
        (sdk.web3.privateKeyToAccount private_key)) (fun account =>
     pyBind (pyCall (.getTransactionCount account.address)
        (sdk.web3.eth_getTransactionCount account.address)) (fun nonce =>
     let transaction : TxDict :=
       { to_addr := some to_address, value := some amount_wei, gas := 2000000,
         gasPrice := toWei_gwei 20, nonce := nonce }
     pyBind (pyCall (.signTransaction transaction private_key)
        (sdk.web3.signTransaction transaction private_key)) (fun signed_txn =>
     pyBind (pyCall (.sendRawTransaction signed_txn.rawTransaction)
        (sdk.web3.sendRawTransaction signed_txn.rawTransaction)) (fun tx_hash =>
     pyBind (pyLog .info ("Transaction sent: " ++ tx_hash.hex)) (fun _ =>
     pyret tx_hash.hex))))))

/-- `call_contract_function(self, contract_address, abi, function_name, args=[])`. -/
def call_contract_function (sdk : PolygonSDK) (contract_address abi function_name : String)
    (args : List PyVal) : PyM (Option PyVal) :=
  pyTry catchAll
    (fun e => "Error calling contract function " ++ function_name ++ ": " ++ excMsg e)
    (pyBind (pyCall (.jsonLoads abi) (sdk.web3.jsonLoads abi)) (fun parsed =>
     pyBind (pyCall (.contractNew contract_address parsed)
        (sdk.web3.contractNew contract_address parsed)) (fun _ =>
     pyBind (pyCall (.getFunctionByName contract_address parsed function_name)
        (sdk.web3.get_function_by_name contract_address parsed function_name)) (fun _ =>
     pyBind (pyCall (.applyArgs contract_address parsed function_name args)
        (sdk.web3.applyArgs contract_address parsed function_name args)) (fun _ =>
     pyCall (.fnCall contract_address parsed function_name args)
        (sdk.web3.fn_call contract_address parsed function_name args))))))

/-- `send_contract_transaction(self, private_key, contract_address, abi, function_name, args)`. -/
def send_contract_transaction (sdk : PolygonSDK)
    (private_key contract_address abi function_name : String)
    (args : List PyVal) : PyM (Option String) :=
  pyTry catchAll (fun e => "Error sending contract transaction: " ++ excMsg e)
    (pyBind (pyCall (.jsonLoads abi) (sdk.web3.jsonLoads abi)) (fun parsed =>
     pyBind (pyCall (.contractNew contract_address parsed)
        (sdk.web3.contractNew contract_address parsed)) (fun _ =>
     pyBind (pyCall (.getFunctionByName contract_address parsed function_name)
        (sdk.web3.get_function_by_name contract_address parsed function_name)) (fun _ =>
     pyBind (pyCall (.applyArgs contract_address parsed function_name args)
        (sdk.web3.applyArgs contract_address parsed function_name args)) (fun _ =>
     pyBind (pyCall (.privateKeyToAccount private_key)
        (sdk.web3.privateKeyToAccount private_key)) (fun account =>
     pyBind (pyCall (.getTransactionCount account.address)
        (sdk.web3.eth_getTransactionCount account.address)) (fun nonce =>
     let params : TxDict :=
       { chainId := some 137, gas := 2000000, gasPrice := toWei_gwei 20,
         nonce := nonce }
     pyBind (pyCall (.buildTransaction contract_address parsed function_name args params)
        (sdk.web3.buildTransaction contract_address parsed function_name args params))
       (fun transaction =>
     pyBind (pyCall (.signTransaction transaction private_key)
        (sdk.web3.signTransaction transaction private_key)) (fun signed_txn =>
     pyBind (pyCall (.sendRawTransaction signed_txn.rawTransaction)
        (sdk.web3.sendRawTransaction signed_txn.rawTransaction)) (fun tx_hash =>
     pyBind (pyLog .info ("Contract transaction sent: " ++ tx_hash.hex)) (fun _ =>
     pyret tx_hash.hex)))))))))))

end PolygonSDK

/-- `json.dumps` of one ABI parameter object, with Python's default
separators (Python strings here contain no characters needing escapes).
A literal brace in the output is written with a hex escape. -/
def dumpParam (p : AbiParam) : String :=
  "\x7b\"name\": \"" ++ p.name ++ "\", \"type\": \"" ++ p.type ++ "\"\x7d"

/-- `json.dumps` of one ABI function entry, keys in the order of the source's
dict literal. -/
def dumpEntry (e : AbiFunctionEntry) : String :=
  "\x7b\"constant\": " ++ (if e.constant then "true" else "false")
    ++ ", \"inputs\": [" ++ String.intercalate ", " (e.inputs.map dumpParam)
    ++ "], \"name\": \"" ++ e.name
    ++ "\", \"outputs\": [" ++ String.intercalate ", " (e.outputs.map dumpParam)
    ++ "], \"payable\": " ++ (if e.payable then "true" else "false")
    ++ ", \"stateMutability\": \"" ++ e.stateMutability
    ++ "\", \"type\": \"" ++ e.type ++ "\"\x7d"

/-- `json.dumps` of an ABI (a JSON array of function entries). -/
def dumpAbi (l : Abi) : String :=
  "[" ++ String.intercalate ", " (l.map dumpEntry) ++ "]"

/-- The single-entry ABI built inside `get_erc20_balance`: the standard
`balanceOf(address) -> uint256` read method. -/
def erc20Abi : Abi :=
  [{ constant := true,
     inputs := [{ name := "owner", type := "address" }],
     name := "balanceOf",
     outputs := [{ name := "", type := "uint256" }],
     payable := false,
     stateMutability := "view",
     type := "function" }]

namespace PolygonSDK

/-- `get_erc20_balance(self, token_address, wallet_address)`: builds the
`balanceOf` ABI fragment with `json.dumps` and delegates to
`call_contract_function` with the wallet address as sole argument; its own
`except Exception` clause returns `None` with a logged error. -/
def get_erc20_balance (sdk : PolygonSDK) (token_address wallet_address : String) :
    PyM (Option PyVal) :=
  let erc20_abi := dumpAbi erc20Abi
  match call_contract_function sdk token_address erc20_abi "balanceOf"
      [PyVal.str wallet_address] with
  | ⟨.ok r, cs, ls⟩ => ⟨.ok r, cs, ls⟩
  | ⟨.exc e, cs, ls⟩ =>
    ⟨.ok none, cs, ls ++ [⟨.error, "Error getting ERC20 token balance: " ++ excMsg e⟩]⟩

/-- Object state of the SDK after `get_block`: the method body contains no
attribute assignment, so the receiver is unchanged. -/
def get_block_self_after (sdk : PolygonSDK) (_block_number : BlockId) : PolygonSDK := sdk

/-- Object state of the SDK after `get_transaction` (no attribute assignment). -/
def get_transaction_self_after (sdk : PolygonSDK) (_tx_hash : String) : PolygonSDK := sdk

/-- Object state of the SDK after `get_balance` (no attribute assignment). -/
def get_balance_self_after (sdk : PolygonSDK) (_address : String) : PolygonSDK := sdk

/-- Object state of the SDK after `send_transaction` (no attribute assignment). -/
def send_transaction_self_after (sdk : PolygonSDK) (_private_key _to_address : String)
    (_amount_wei : Int) : PolygonSDK := sdk

/-- Object state of the SDK after `call_contract_function` (no attribute
assignment). -/
def call_contract_function_self_after (sdk : PolygonSDK)
    (_contract_address _abi _function_name : String) (_args : List PyVal) : PolygonSDK := sdk

/-- Object state of the SDK after `send_contract_transaction` (no attribute
assignment). -/
def send_contract_transaction_self_after (sdk : PolygonSDK)
    (_private_key _contract_address _abi _function_name : String)
    (_args : List PyVal) : PolygonSDK := sdk

/-- Object state of the SDK after `get_erc20_balance` (no attribute
assignment). -/
def get_erc20_balance_self_after (sdk : PolygonSDK)
    (_token_address _wallet_address : String) : PolygonSDK := sdk

end PolygonSDK

/-- A dependency environment in which every call succeeds, with fixed
concrete answers; used to exercise the theorems on concrete inputs. -/
def baseEnv : Web3Env where
  isConnected := true
  eth_getBlock := fun _ => .ok ⟨"blockrecord"⟩
  eth_getTransaction := fun _ => .ok ⟨"txrecord"⟩
  eth_getBalance := fun _ => .ok 1000
  eth_getTransactionCount := fun _ => .ok 7
  privateKeyToAccount := fun _ => .ok ⟨"0xSender"⟩
  signTransaction := fun _ _ => .ok ⟨[1, 2, 3]⟩
  sendRawTransaction := fun _ => .ok ⟨"0xdeadbeef"⟩
  jsonLoads := fun _ => .ok erc20Abi
  contractNew := fun _ _ => .ok ()
  get_function_by_name := fun _ _ _ => .ok ()
  applyArgs := fun _ _ _ _ => .ok ()
  fn_call := fun _ _ _ _ => .ok (.int 1000000000000000000)
  buildTransaction := fun _ _ _ _ p =>
    .ok { p with to_addr := some "0xContract", data := some "0xcalldata" }

/-- Environment whose balance query fails with a connection error (an
exception kind that is not a `ValueError`). -/
def connFailEnv : Web3Env :=
  { baseEnv with eth_getBalance := fun _ => .exc .connectionError }

/-- Environment in which block and transaction lookups report not-found and
the balance query rejects the address. -/
def notFoundEnv : Web3Env :=
  { baseEnv with
    eth_getBlock := fun _ => .exc .blockNotFound,
    eth_getTransaction := fun _ => .exc .transactionNotFound,
    eth_getBalance := fun _ => .exc .invalidAddress }

/-- Environment in which the private key fails to parse with a `ValueError`
and the ABI string fails to parse. -/
def badInputEnv : Web3Env :=
  { baseEnv with
    privateKeyToAccount := fun _ => .exc .valueError,
    jsonLoads := fun _ => .exc .jsonDecodeError }

/-- Environment that is not connected. -/
def downEnv : Web3Env := { baseEnv with isConnected := false }

/-- Environment whose nonce query fails with a connection error while the
account derivation succeeds. -/
def nonceFailEnv : Web3Env :=
  { baseEnv with eth_getTransactionCount := fun _ => .exc .connectionError }

/-- A `try` block only lets an exception escape when its `except` clause does
not catch that exception's class. -/
theorem pyTry_exc_not_caught {α : Type} {caught : ExcKind → Bool}
    {msg : ExcKind → String} {m : PyM α} {e : ExcKind}
    (h : (pyTry caught msg m).res = .exc e) : caught e = false := by
  rcases m with ⟨r, cs, ls⟩
  cases r with
  | ok a => simp [pyTry] at h
  | exc e2 =>
    cases hcv : caught e2 with
    | true => simp [pyTry, hcv] at h
    | false =>
      simp [pyTry, hcv] at h
      exact h ▸ hcv

/-- A `try` block whose `except` clause is `except Exception` never lets an
exception escape. -/
theorem pyTry_catchAll_ok {α : Type} (msg : ExcKind → String) (m : PyM α) :
    (pyTry catchAll msg m).res.isOk = true := by
  rcases m with ⟨r, cs, ls⟩
  cases r <;> simp [pyTry, catchAll, PyResult.isOk]

/-- `call_contract_function` never raises: its whole body sits under an
`except Exception` clause. -/
theorem call_contract_function_res_ok (sdk : PolygonSDK)
    (ca abi fn : String) (args : List PyVal) :
    (PolygonSDK.call_contract_function sdk ca abi fn args).res.isOk = true := by
  unfold PolygonSDK.call_contract_function
  exact pyTry_catchAll_ok _ _

/-- A `try` block that evaluates to `None` did so because the body raised a
caught exception, and then the `except` clause appended an error log line. -/
theorem pyTry_none_log {α : Type} {caught : ExcKind → Bool}
    {msg : ExcKind → String} {m : PyM α}
    (h : (pyTry caught msg m).res = .ok none) :
    ∃ e : ExcKind, m.res = .exc e ∧
      (pyTry caught msg m).logs = m.logs ++ [⟨.error, msg e⟩] := by
  rcases m with ⟨r, cs, ls⟩
  cases r with
  | ok a => simp [pyTry] at h
  | exc e =>
    cases hcv : caught e with
    | true => exact ⟨e, rfl, by simp [pyTry, hcv]⟩
    | false => simp [pyTry, hcv] at h

/-- When `call_contract_function` returns `None`, its last log line is an
error diagnostic (written by the `except Exception` clause). -/
theorem call_contract_function_none_log (sdk : PolygonSDK) (ca abi fn : String)
    (args : List PyVal)
    (h : (PolygonSDK.call_contract_function sdk ca abi fn args).res = .ok none) :
    ∃ s : String, (PolygonSDK.call_contract_function sdk ca abi fn args).logs.getLast?
      = some ⟨.error, s⟩ := by
  unfold PolygonSDK.call_contract_function at h ⊢
  obtain ⟨e, hm, hl⟩ := pyTry_none_log h
  refine ⟨"Error calling contract function " ++ fn ++ ": " ++ excMsg e, ?_⟩
  rw [hl, List.getLast?_append_cons]
  rfl

/-- When `send_contract_transaction` returns `None`, its last log line is an
error diagnostic (written by the `except Exception` clause). -/
theorem send_contract_transaction_none_log (sdk : PolygonSDK)
    (pk ca abi fn : String) (args : List PyVal)
    (h : (PolygonSDK.send_contract_transaction sdk pk ca abi fn args).res = .ok none) :
    ∃ s : String,
      (PolygonSDK.send_contract_transaction sdk pk ca abi fn args).logs.getLast?
        = some ⟨.error, s⟩ := by
  unfold PolygonSDK.send_contract_transaction at h ⊢
  obtain ⟨e, hm, hl⟩ := pyTry_none_log h
  refine ⟨"Error sending contract transaction: " ++ excMsg e, ?_⟩
  rw [hl, List.getLast?_append_cons]
  rfl

/-- `get_erc20_balance` literally returns the `call_contract_function` result
on the dumped `balanceOf` ABI: the inner call never raises, so the outer
`except Exception` branch of `get_erc20_balance` is never taken. -/
theorem get_erc20_eq_delegate (url tok wal : String) (env : Web3Env) :
    PolygonSDK.get_erc20_balance ⟨url, env⟩ tok wal
      = PolygonSDK.call_contract_function ⟨url, env⟩ tok (dumpAbi erc20Abi)
          "balanceOf" [PyVal.str wal] := by
  have hok := call_contract_function_res_ok ⟨url, env⟩ tok (dumpAbi erc20Abi)
    "balanceOf" [PyVal.str wal]
  unfold PolygonSDK.get_erc20_balance
  rcases hm : PolygonSDK.call_contract_function ⟨url, env⟩ tok (dumpAbi erc20Abi)
      "balanceOf" [PyVal.str wal] with ⟨r, cs, ls⟩
  rw [hm] at hok
  cases r with
  | ok v => simp [hm]
  | exc e => simp [PyResult.isOk] at hok

/-- C6: constructing the client raises `ConnectionError` exactly when the
connectivity check fails; on success it records the endpoint URL and the RPC
handle and emits an informational log line. -/
theorem init_connection_check (url : String) (w : Web3Env) :
    ((PolygonSDK.init url w).1 = .exc .connectionError ↔ w.isConnected = false)
    ∧ (w.isConnected = true →
        PolygonSDK.init url w =
          (.ok { provider_url := url, web3 := w },
           [⟨.info, "Connected to Polygon provider: " ++ url⟩])) := by
  cases hw : w.isConnected <;> simp [PolygonSDK.init, hw]

/-- Witness for `init_connection_check` at an unreachable and a reachable
concrete environment. -/
theorem init_connection_check_witness :
    downEnv.isConnected = false
    ∧ (PolygonSDK.init "http://node" downEnv).1 = .exc .connectionError
    ∧ baseEnv.isConnected = true
    ∧ PolygonSDK.init "http://node" baseEnv =
        (.ok { provider_url := "http://node", web3 := baseEnv },
         [⟨.info, "Connected to Polygon provider: http://node"⟩]) :=
  ⟨rfl, (init_connection_check "http://node" downEnv).1.mpr rfl, rfl,
   (init_connection_check "http://node" baseEnv).2 rfl⟩

/-- C4: when the node reports block-not-found, `get_block` returns `None` and
logs an error instead of raising, and `get_transaction` does the same for an
unknown transaction hash. -/
theorem not_found_returns_none (url : String) (env : Web3Env) (b : BlockId)
    (txh : String)
    (hb : env.eth_getBlock b = .exc .blockNotFound)
    (ht : env.eth_getTransaction txh = .exc .transactionNotFound) :
    PolygonSDK.get_block ⟨url, env⟩ b =
      ⟨.ok none, [.getBlock b], [⟨.error, "Block not found: " ++ b.render⟩]⟩
    ∧ PolygonSDK.get_transaction ⟨url, env⟩ txh =
      ⟨.ok none, [.getTransaction txh],
       [⟨.error, "Transaction not found: " ++ txh⟩]⟩ := by
  constructor
  · simp [PolygonSDK.get_block, pyCall, pyTry, hb, isBlockNotFound]
  · simp [PolygonSDK.get_transaction, pyCall, pyTry, ht, isTransactionNotFound]

/-- Witness for `not_found_returns_none` on a concrete environment reporting
both lookups as absent. -/
theorem not_found_returns_none_witness :
    notFoundEnv.eth_getBlock (.num 99999999) = .exc .blockNotFound
    ∧ notFoundEnv.eth_getTransaction "0xdeadhash" = .exc .transactionNotFound
    ∧ PolygonSDK.get_block ⟨"http://node", notFoundEnv⟩ (.num 99999999) =
        ⟨.ok none, [.getBlock (.num 99999999)],
         [⟨.error, "Block not found: 99999999"⟩]⟩
    ∧ PolygonSDK.get_transaction ⟨"http://node", notFoundEnv⟩ "0xdeadhash" =
        ⟨.ok none, [.getTransaction "0xdeadhash"],
         [⟨.error, "Transaction not found: 0xdeadhash"⟩]⟩ :=
  ⟨rfl, rfl,
   (not_found_returns_none "http://node" notFoundEnv (.num 99999999) "0xdeadhash"
      rfl rfl).1,
   (not_found_returns_none "http://node" notFoundEnv (.num 99999999) "0xdeadhash"
      rfl rfl).2⟩

/-- C7: `get_balance` returns `None` with a logged error when the dependency
rejects a malformed address (`InvalidAddress`, a `ValueError` subclass), and
returns the integer balance in the smallest unit for a valid address. -/
theorem get_balance_policy (url a : String) (env : Web3Env) :
    (env.eth_getBalance a = .exc .invalidAddress →
      PolygonSDK.get_balance ⟨url, env⟩ a =
        ⟨.ok none, [.getBalance a],
         [⟨.error, "Error getting balance for " ++ a ++ ": " ++ "InvalidAddress"⟩]⟩)
    ∧ (∀ n : Int, env.eth_getBalance a = .ok n →
        PolygonSDK.get_balance ⟨url, env⟩ a = ⟨.ok (some n), [.getBalance a], []⟩) := by
  constructor
  · intro h
    simp [PolygonSDK.get_balance, pyCall, pyTry, h, isValueError, excMsg]
  · intro n h
    simp [PolygonSDK.get_balance, pyCall, pyTry, h]

/-- Witness for `get_balance_policy`: a rejecting and an accepting concrete
environment. -/
theorem get_balance_policy_witness :
    notFoundEnv.eth_getBalance "not-an-address" = .exc .invalidAddress
    ∧ PolygonSDK.get_balance ⟨"http://node", notFoundEnv⟩ "not-an-address" =
        ⟨.ok none, [.getBalance "not-an-address"],
         [⟨.error, "Error getting balance for not-an-address: InvalidAddress"⟩]⟩
    ∧ baseEnv.eth_getBalance "0xabc" = .ok 1000
    ∧ PolygonSDK.get_balance ⟨"http://node", baseEnv⟩ "0xabc" =
        ⟨.ok (some 1000), [.getBalance "0xabc"], []⟩ :=
  ⟨rfl,
   (get_balance_policy "http://node" "not-an-address" notFoundEnv).1 rfl,
   rfl,
   (get_balance_policy "http://node" "0xabc" baseEnv).2 1000 rfl⟩

/-- C1 counterexample: `get_balance` catches only `ValueError`, so a
connection error raised by the dependency during the balance query propagates
to the caller instead of being converted to `None`. -/
theorem get_balance_propagates_dependency_error :
    (PolygonSDK.get_balance ⟨"http://node", connFailEnv⟩ "0xabc").res
      = PyResult.exc ExcKind.connectionError := rfl

/-- C1 (amended): each operation-level method catches only the exception
classes named by its handler and converts a caught error into `None` plus a
logged error diagnostic, while a dependency error of any other class
propagates unchanged (with no log) from `get_block`, `get_transaction`,
`get_balance` and `send_transaction`; `call_contract_function`,
`send_contract_transaction` and `get_erc20_balance` catch every exception,
logging an error diagnostic whenever they return `None`. -/
theorem catch_clauses_are_exact (url : String) (env : Web3Env) :
    -- get_block propagates any error other than BlockNotFound, without a log
    (∀ (b : BlockId) (e : ExcKind), env.eth_getBlock b = .exc e →
        isBlockNotFound e = false →
        PolygonSDK.get_block ⟨url, env⟩ b = ⟨.exc e, [.getBlock b], []⟩)
    -- get_block catches BlockNotFound: None plus a logged diagnostic
    ∧ (∀ b : BlockId, env.eth_getBlock b = .exc .blockNotFound →
        PolygonSDK.get_block ⟨url, env⟩ b =
          ⟨.ok none, [.getBlock b], [⟨.error, "Block not found: " ++ b.render⟩]⟩)
    -- get_transaction propagates any error other than TransactionNotFound
    ∧ (∀ (txh : String) (e : ExcKind), env.eth_getTransaction txh = .exc e →
        isTransactionNotFound e = false →
        PolygonSDK.get_transaction ⟨url, env⟩ txh =
          ⟨.exc e, [.getTransaction txh], []⟩)
    -- get_transaction catches TransactionNotFound: None plus a logged diagnostic
    ∧ (∀ txh : String, env.eth_getTransaction txh = .exc .transactionNotFound →
        PolygonSDK.get_transaction ⟨url, env⟩ txh =
          ⟨.ok none, [.getTransaction txh],
           [⟨.error, "Transaction not found: " ++ txh⟩]⟩)
    -- get_balance propagates any error that is not a ValueError
    ∧ (∀ (a : String) (e : ExcKind), env.eth_getBalance a = .exc e →
        isValueError e = false →
        PolygonSDK.get_balance ⟨url, env⟩ a = ⟨.exc e, [.getBalance a], []⟩)
    -- get_balance catches ValueError: None plus a logged diagnostic
    ∧ (∀ (a : String) (e : ExcKind), env.eth_getBalance a = .exc e →
        isValueError e = true →
        PolygonSDK.get_balance ⟨url, env⟩ a =
          ⟨.ok none, [.getBalance a],
           [⟨.error, "Error getting balance for " ++ a ++ ": " ++ excMsg e⟩]⟩)
    -- send_transaction: whatever escapes is never a ValueError
    ∧ (∀ (pk toA : String) (amt : Int) (e : ExcKind),
        (PolygonSDK.send_transaction ⟨url, env⟩ pk toA amt).res = .exc e →
        isValueError e = false)
    -- send_transaction propagates a non-ValueError from the key derivation
    ∧ (∀ (pk toA : String) (amt : Int) (e : ExcKind),
        env.privateKeyToAccount pk = .exc e → isValueError e = false →
        PolygonSDK.send_transaction ⟨url, env⟩ pk toA amt =
          ⟨.exc e, [.privateKeyToAccount pk], []⟩)
    -- send_transaction catches a ValueError from the key derivation
    ∧ (∀ (pk toA : String) (amt : Int) (e : ExcKind),
        env.privateKeyToAccount pk = .exc e → isValueError e = true →
        PolygonSDK.send_transaction ⟨url, env⟩ pk toA amt =
          ⟨.ok none, [.privateKeyToAccount pk],
           [⟨.error, "Transaction error: " ++ excMsg e⟩]⟩)
    -- send_transaction propagates a non-ValueError from the nonce query
    ∧ (∀ (pk toA : String) (amt : Int) (acct : Account) (e : ExcKind),
        env.privateKeyToAccount pk = .ok acct →
        env.eth_getTransactionCount acct.address = .exc e →
        isValueError e = false →
        PolygonSDK.send_transaction ⟨url, env⟩ pk toA amt =
          ⟨.exc e, [.privateKeyToAccount pk, .getTransactionCount acct.address],
           []⟩)
    -- send_transaction catches a ValueError from the nonce query
    ∧ (∀ (pk toA : String) (amt : Int) (acct : Account) (e : ExcKind),
        env.privateKeyToAccount pk = .ok acct →
        env.eth_getTransactionCount acct.address = .exc e →
        isValueError e = true →
        PolygonSDK.send_transaction ⟨url, env⟩ pk toA amt =
          ⟨.ok none, [.privateKeyToAccount pk, .getTransactionCount acct.address],
           [⟨.error, "Transaction error: " ++ excMsg e⟩]⟩)
    -- send_transaction propagates a non-ValueError from signing
    ∧ (∀ (pk toA : String) (amt : Int) (acct : Account) (n : Nat) (e : ExcKind),
        env.privateKeyToAccount pk = .ok acct →
        env.eth_getTransactionCount acct.address = .ok n →
        env.signTransaction
          { to_addr := some toA, value := some amt, gas := 2000000,
            gasPrice := toWei_gwei 20, nonce := n } pk = .exc e →
        isValueError e = false →
        PolygonSDK.send_transaction ⟨url, env⟩ pk toA amt =
          ⟨.exc e,
           [.privateKeyToAccount pk, .getTransactionCount acct.address,
            .signTransaction
              { to_addr := some toA, value := some amt, gas := 2000000,
                gasPrice := toWei_gwei 20, nonce := n } pk], []⟩)
    -- send_transaction catches a ValueError from signing
    ∧ (∀ (pk toA : String) (amt : Int) (acct : Account) (n : Nat) (e : ExcKind),
        env.privateKeyToAccount pk = .ok acct →
        env.eth_getTransactionCount acct.address = .ok n →
        env.signTransaction
          { to_addr := some toA, value := some amt, gas := 2000000,
            gasPrice := toWei_gwei 20, nonce := n } pk = .exc e →
        isValueError e = true →
        PolygonSDK.send_transaction ⟨url, env⟩ pk toA amt =
          ⟨.ok none,
           [.privateKeyToAccount pk, .getTransactionCount acct.address,
            .signTransaction
              { to_addr := some toA, value := some amt, gas := 2000000,
                gasPrice := toWei_gwei 20, nonce := n } pk],
           [⟨.error, "Transaction error: " ++ excMsg e⟩]⟩)
    -- send_transaction propagates a non-ValueError from the broadcast
    ∧ (∀ (pk toA : String) (amt : Int) (acct : Account) (n : Nat)
        (st : SignedTx) (e : ExcKind),
        env.privateKeyToAccount pk = .ok acct →
        env.eth_getTransactionCount acct.address = .ok n →
        env.signTransaction
          { to_addr := some toA, value := some amt, gas := 2000000,
            gasPrice := toWei_gwei 20, nonce := n } pk = .ok st →
        env.sendRawTransaction st.rawTransaction = .exc e →
        isValueError e = false →
        PolygonSDK.send_transaction ⟨url, env⟩ pk toA amt =
          ⟨.exc e,
           [.privateKeyToAccount pk, .getTransactionCount acct.address,
            .signTransaction
              { to_addr := some toA, value := some amt, gas := 2000000,
                gasPrice := toWei_gwei 20, nonce := n } pk,
            .sendRawTransaction st.rawTransaction], []⟩)
    -- send_transaction catches a ValueError from the broadcast (node rejection)
    ∧ (∀ (pk toA : String) (amt : Int) (acct : Account) (n : Nat)
        (st : SignedTx) (e : ExcKind),
        env.privateKeyToAccount pk = .ok acct →
        env.eth_getTransactionCount acct.address = .ok n →
        env.signTransaction
          { to_addr := some toA, value := some amt, gas := 2000000,
            gasPrice := toWei_gwei 20, nonce := n } pk = .ok st →
        env.sendRawTransaction st.rawTransaction = .exc e →
        isValueError e = true →
        PolygonSDK.send_transaction ⟨url, env⟩ pk toA amt =
          ⟨.ok none,
           [.privateKeyToAccount pk, .getTransactionCount acct.address,
            .signTransaction
              { to_addr := some toA, value := some amt, gas := 2000000,
                gasPrice := toWei_gwei 20, nonce := n } pk,
            .sendRawTransaction st.rawTransaction],
           [⟨.error, "Transaction error: " ++ excMsg e⟩]⟩)
    -- call_contract_function never lets any exception escape
    ∧ (∀ (ca abi fn : String) (args : List PyVal),
        (PolygonSDK.call_contract_function ⟨url, env⟩ ca abi fn args).res.isOk
          = true)
    -- call_contract_function catches any error: None plus a logged diagnostic
    ∧ (∀ (ca abi fn : String) (args : List PyVal) (e : ExcKind),
        env.jsonLoads abi = .exc e →
        PolygonSDK.call_contract_function ⟨url, env⟩ ca abi fn args =
          ⟨.ok none, [.jsonLoads abi],
           [⟨.error,
             "Error calling contract function " ++ fn ++ ": " ++ excMsg e⟩]⟩)
    -- whenever call_contract_function yields None, an error line was logged
    ∧ (∀ (ca abi fn : String) (args : List PyVal),
        (PolygonSDK.call_contract_function ⟨url, env⟩ ca abi fn args).res
          = .ok none →
        ∃ s : String,
          (PolygonSDK.call_contract_function ⟨url, env⟩ ca abi fn args).logs.getLast?
            = some ⟨.error, s⟩)
    -- send_contract_transaction never lets any exception escape
    ∧ (∀ (pk ca abi fn : String) (args : List PyVal),
        (PolygonSDK.send_contract_transaction ⟨url, env⟩ pk ca abi fn args).res.isOk
          = true)
    -- send_contract_transaction catches any error: None plus a logged diagnostic
    ∧ (∀ (pk ca abi fn : String) (args : List PyVal) (e : ExcKind),
        env.jsonLoads abi = .exc e →
        PolygonSDK.send_contract_transaction ⟨url, env⟩ pk ca abi fn args =
          ⟨.ok none, [.jsonLoads abi],
           [⟨.error, "Error sending contract transaction: " ++ excMsg e⟩]⟩)
    -- whenever send_contract_transaction yields None, an error line was logged
    ∧ (∀ (pk ca abi fn : String) (args : List PyVal),
        (PolygonSDK.send_contract_transaction ⟨url, env⟩ pk ca abi fn args).res
          = .ok none →
        ∃ s : String,
          (PolygonSDK.send_contract_transaction ⟨url, env⟩ pk ca abi
              fn args).logs.getLast? = some ⟨.error, s⟩)
    -- get_erc20_balance never lets any exception escape
    ∧ (∀ tok wal : String,
        (PolygonSDK.get_erc20_balance ⟨url, env⟩ tok wal).res.isOk = true)
    -- get_erc20_balance converts an error into None plus a logged diagnostic
    ∧ (∀ (tok wal : String) (e : ExcKind),
        env.jsonLoads (dumpAbi erc20Abi) = .exc e →
        PolygonSDK.get_erc20_balance ⟨url, env⟩ tok wal =
          ⟨.ok none, [.jsonLoads (dumpAbi erc20Abi)],
           [⟨.error,
             "Error calling contract function " ++ "balanceOf" ++ ": "
               ++ excMsg e⟩]⟩)
    -- whenever get_erc20_balance yields None, an error line was logged
    ∧ (∀ tok wal : String,
        (PolygonSDK.get_erc20_balance ⟨url, env⟩ tok wal).res = .ok none →
        ∃ s : String,
          (PolygonSDK.get_erc20_balance ⟨url, env⟩ tok wal).logs.getLast?
            = some ⟨.error, s⟩) := by
  refine ⟨?_, ?_, ?_, ?_, ?_, ?_, ?_, ?_, ?_, ?_, ?_, ?_, ?_, ?_, ?_, ?_, ?_,
    ?_, ?_, ?_, ?_, ?_, ?_, ?_⟩
  · intro b e h he
    simp [PolygonSDK.get_block, pyCall, pyTry, h, he]
  · intro b h
    simp [PolygonSDK.get_block, pyCall, pyTry, h, isBlockNotFound]
  · intro txh e h he
    simp [PolygonSDK.get_transaction, pyCall, pyTry, h, he]
  · intro txh h
    simp [PolygonSDK.get_transaction, pyCall, pyTry, h, isTransactionNotFound]
  · intro a e h he
    simp [PolygonSDK.get_balance, pyCall, pyTry, h, he]
  · intro a e h he
    simp [PolygonSDK.get_balance, pyCall, pyTry, h, he]
  · intro pk toA amt e h
    unfold PolygonSDK.send_transaction at h
    exact pyTry_exc_not_caught h
  · intro pk toA amt e h he
    simp [PolygonSDK.send_transaction, pyBind, pyCall, pyTry, pyLog, pyret,
      h, he]
  · intro pk toA amt e h he
    simp [PolygonSDK.send_transaction, pyBind, pyCall, pyTry, pyLog, pyret,
      h, he]
  · intro pk toA amt acct e h1 h2 he
    simp [PolygonSDK.send_transaction, pyBind, pyCall, pyTry, pyLog, pyret,
      h1, h2, he]
  · intro pk toA amt acct e h1 h2 he
    simp [PolygonSDK.send_transaction, pyBind, pyCall, pyTry, pyLog, pyret,
      h1, h2, he]
  · intro pk toA amt acct n e h1 h2 h3 he
    simp [PolygonSDK.send_transaction, pyBind, pyCall, pyTry, pyLog, pyret,
      h1, h2, h3, he]
  · intro pk toA amt acct n e h1 h2 h3 he
    simp [PolygonSDK.send_transaction, pyBind, pyCall, pyTry, pyLog, pyret,
      h1, h2, h3, he]
  · intro pk toA amt acct n st e h1 h2 h3 h4 he
    simp [PolygonSDK.send_transaction, pyBind, pyCall, pyTry, pyLog, pyret,
      h1, h2, h3, h4, he]
  · intro pk toA amt acct n st e h1 h2 h3 h4 he
    simp [PolygonSDK.send_transaction, pyBind, pyCall, pyTry, pyLog, pyret,
      h1, h2, h3, h4, he]
  · intro ca abi fn args
    exact call_contract_function_res_ok _ _ _ _ _
  · intro ca abi fn args e h
    simp [PolygonSDK.call_contract_function, pyBind, pyCall, pyTry, catchAll, h]
  · intro ca abi fn args h
    exact call_contract_function_none_log _ _ _ _ _ h
  · intro pk ca abi fn args
    unfold PolygonSDK.send_contract_transaction
    exact pyTry_catchAll_ok _ _
  · intro pk ca abi fn args e h
    simp [PolygonSDK.send_contract_transaction, pyBind, pyCall, pyTry,
      catchAll, h]
  · intro pk ca abi fn args h
    exact send_contract_transaction_none_log _ _ _ _ _ _ h
  · intro tok wal
    rw [get_erc20_eq_delegate]
    exact call_contract_function_res_ok _ _ _ _ _
  · intro tok wal e h
    rw [get_erc20_eq_delegate]
    simp [PolygonSDK.call_contract_function, pyBind, pyCall, pyTry, catchAll, h]
  · intro tok wal h
    rw [get_erc20_eq_delegate] at h ⊢
    exact call_contract_function_none_log _ _ _ _ _ h

/-- Witness for `catch_clauses_are_exact`: concrete instances of a caught
not-found, a propagating connection error from `get_balance` and from the
nonce query of `send_transaction`, a caught `ValueError`, and the logged
`None` results of the three contract methods. -/
theorem catch_clauses_are_exact_witness :
    notFoundEnv.eth_getBlock (.num 5) = .exc .blockNotFound
    ∧ PolygonSDK.get_block ⟨"u", notFoundEnv⟩ (.num 5) =
        ⟨.ok none, [.getBlock (.num 5)],
         [⟨.error, "Block not found: " ++ (BlockId.num 5).render⟩]⟩
    ∧ connFailEnv.eth_getBalance "0xabc" = .exc .connectionError
    ∧ isValueError .connectionError = false
    ∧ PolygonSDK.get_balance ⟨"u", connFailEnv⟩ "0xabc" =
        ⟨.exc .connectionError, [.getBalance "0xabc"], []⟩
    ∧ nonceFailEnv.privateKeyToAccount "pk" = .ok ⟨"0xSender"⟩
    ∧ nonceFailEnv.eth_getTransactionCount "0xSender" = .exc .connectionError
    ∧ PolygonSDK.send_transaction ⟨"u", nonceFailEnv⟩ "pk" "0xTo" 5 =
        ⟨.exc .connectionError,
         [.privateKeyToAccount "pk", .getTransactionCount "0xSender"], []⟩
    ∧ badInputEnv.privateKeyToAccount "pk" = .exc .valueError
    ∧ isValueError .valueError = true
    ∧ PolygonSDK.send_transaction ⟨"u", badInputEnv⟩ "pk" "0xTo" 5 =
        ⟨.ok none, [.privateKeyToAccount "pk"],
         [⟨.error, "Transaction error: " ++ excMsg .valueError⟩]⟩
    ∧ badInputEnv.jsonLoads "not json" = .exc .jsonDecodeError
    ∧ PolygonSDK.call_contract_function ⟨"u", badInputEnv⟩ "0xC" "not json" "f" [] =
        ⟨.ok none, [.jsonLoads "not json"],
         [⟨.error,
           "Error calling contract function " ++ "f" ++ ": "
             ++ excMsg .jsonDecodeError⟩]⟩
    ∧ (∃ s : String,
        (PolygonSDK.call_contract_function ⟨"u", badInputEnv⟩ "0xC" "not json"
            "f" []).logs.getLast? = some ⟨.error, s⟩)
    ∧ (PolygonSDK.send_contract_transaction ⟨"u", badInputEnv⟩ "pk" "0xC" "[]"
        "f" []).res.isOk = true
    ∧ PolygonSDK.get_erc20_balance ⟨"u", badInputEnv⟩ "0xT" "0xW" =
        ⟨.ok none, [.jsonLoads (dumpAbi erc20Abi)],
         [⟨.error,
           "Error calling contract function " ++ "balanceOf" ++ ": "
             ++ excMsg .jsonDecodeError⟩]⟩ := by
  obtain ⟨-, g2nf, -, -, -, -, -, -, -, -, -, -, -, -, -, -, -, -, -, -, -, -,
    -, -⟩ := catch_clauses_are_exact "u" notFoundEnv
  obtain ⟨-, -, -, -, b1cf, -, -, -, -, -, -, -, -, -, -, -, -, -, -, -, -, -,
    -, -⟩ := catch_clauses_are_exact "u" connFailEnv
  obtain ⟨-, -, -, -, -, -, -, -, -, stp2nc, -, -, -, -, -, -, -, -, -, -, -,
    -, -, -⟩ := catch_clauses_are_exact "u" nonceFailEnv
  obtain ⟨-, -, -, -, -, -, -, -, stc1bi, -, -, -, -, -, -, -, cc2bi, cc3bi,
    sx1bi, -, -, -, e2bi, -⟩ := catch_clauses_are_exact "u" badInputEnv
  exact ⟨rfl, g2nf (.num 5) rfl, rfl, rfl,
    b1cf "0xabc" .connectionError rfl rfl, rfl, rfl,
    stp2nc "pk" "0xTo" 5 ⟨"0xSender"⟩ .connectionError rfl rfl rfl, rfl, rfl,
    stc1bi "pk" "0xTo" 5 .valueError rfl rfl, rfl,
    cc2bi "0xC" "not json" "f" [] .jsonDecodeError rfl,
    cc3bi "0xC" "not json" "f" [] rfl,
    sx1bi "pk" "0xC" "[]" "f" [],
    e2bi "0xT" "0xW" .jsonDecodeError rfl⟩

/-- C2: `send_transaction` builds the outbound mapping with exactly the
fields `to`, `value`, a gas limit of 2000000, a gas price of 20 gwei
(20·10⁹ wei), and a nonce fetched by exactly one `getTransactionCount` query
for the sender address derived from the private key; on success it returns
the broadcast transaction hash as a hex string. -/
theorem send_transaction_builds_fixed_params (url pk toA : String) (amt : Int)
    (env : Web3Env) (acct : Account) (n : Nat) (st : SignedTx) (hb : HexBytes)
    (h1 : env.privateKeyToAccount pk = .ok acct)
    (h2 : env.eth_getTransactionCount acct.address = .ok n)
    (h3 : env.signTransaction
        { to_addr := some toA, value := some amt, gas := 2000000,
          gasPrice := toWei_gwei 20, nonce := n } pk = .ok st)
    (h4 : env.sendRawTransaction st.rawTransaction = .ok hb) :
    PolygonSDK.send_transaction ⟨url, env⟩ pk toA amt =
      ⟨.ok (some hb.hex),
       [.privateKeyToAccount pk, .getTransactionCount acct.address,
        .signTransaction
          { to_addr := some toA, value := some amt, gas := 2000000,
            gasPrice := toWei_gwei 20, nonce := n } pk,
        .sendRawTransaction st.rawTransaction],
       [⟨.info, "Transaction sent: " ++ hb.hex⟩]⟩
    ∧ ((PolygonSDK.send_transaction ⟨url, env⟩ pk toA amt).calls.countP
        DepCall.isNonceQuery) = 1
    ∧ toWei_gwei 20 = 20000000000 := by
  have hmain :
      PolygonSDK.send_transaction ⟨url, env⟩ pk toA amt =
        ⟨.ok (some hb.hex),
         [.privateKeyToAccount pk, .getTransactionCount acct.address,
          .signTransaction
            { to_addr := some toA, value := some amt, gas := 2000000,
              gasPrice := toWei_gwei 20, nonce := n } pk,
          .sendRawTransaction st.rawTransaction],
         [⟨.info, "Transaction sent: " ++ hb.hex⟩]⟩ := by
    simp [PolygonSDK.send_transaction, pyBind, pyCall, pyTry, pyLog, pyret,
      h1, h2, h3, h4]
  refine ⟨hmain, ?_, rfl⟩
  rw [hmain]
  simp [DepCall.isNonceQuery, List.countP_cons]

/-- Witness for `send_transaction_builds_fixed_params` on the concrete
all-success environment. -/
theorem send_transaction_builds_fixed_params_witness :
    baseEnv.privateKeyToAccount "pk" = .ok ⟨"0xSender"⟩
    ∧ baseEnv.eth_getTransactionCount "0xSender" = .ok 7
    ∧ baseEnv.signTransaction
        { to_addr := some "0xTo", value := some 5, gas := 2000000,
          gasPrice := toWei_gwei 20, nonce := 7 } "pk" = .ok ⟨[1, 2, 3]⟩
    ∧ baseEnv.sendRawTransaction [1, 2, 3] = .ok ⟨"0xdeadbeef"⟩
    ∧ PolygonSDK.send_transaction ⟨"u", baseEnv⟩ "pk" "0xTo" 5 =
        ⟨.ok (some "0xdeadbeef"),
         [.privateKeyToAccount "pk", .getTransactionCount "0xSender",
          .signTransaction
            { to_addr := some "0xTo", value := some 5, gas := 2000000,
              gasPrice := toWei_gwei 20, nonce := 7 } "pk",
          .sendRawTransaction [1, 2, 3]],
         [⟨.info, "Transaction sent: " ++ "0xdeadbeef"⟩]⟩
    ∧ ((PolygonSDK.send_transaction ⟨"u", baseEnv⟩ "pk" "0xTo" 5).calls.countP
        DepCall.isNonceQuery) = 1 :=
  ⟨rfl, rfl, rfl, rfl,
   (send_transaction_builds_fixed_params "u" "pk" "0xTo" 5 baseEnv ⟨"0xSender"⟩ 7
      ⟨[1, 2, 3]⟩ ⟨"0xdeadbeef"⟩ rfl rfl rfl rfl).1,
   (send_transaction_builds_fixed_params "u" "pk" "0xTo" 5 baseEnv ⟨"0xSender"⟩ 7
      ⟨[1, 2, 3]⟩ ⟨"0xdeadbeef"⟩ rfl rfl rfl rfl).2.1⟩

/-- C5: `send_contract_transaction` resolves the contract function, then
builds the state-mutating transaction with chain identifier 137, gas limit
2000000, gas price 20 gwei and a freshly fetched nonce, signs it with the
private key, broadcasts it, and returns the transaction hash as a hex
string. -/
theorem send_contract_transaction_builds_fixed_params
    (url pk ca abi fn : String) (args : List PyVal) (env : Web3Env)
    (parsed : Abi) (acct : Account) (n : Nat) (built : TxDict) (st : SignedTx)
    (hb : HexBytes)
    (h1 : env.jsonLoads abi = .ok parsed)
    (h2 : env.contractNew ca parsed = .ok ())
    (h3 : env.get_function_by_name ca parsed fn = .ok ())
    (h4 : env.applyArgs ca parsed fn args = .ok ())
    (h5 : env.privateKeyToAccount pk = .ok acct)
    (h6 : env.eth_getTransactionCount acct.address = .ok n)
    (h7 : env.buildTransaction ca parsed fn args
        { chainId := some 137, gas := 2000000, gasPrice := toWei_gwei 20,
          nonce := n } = .ok built)
    (h8 : env.signTransaction built pk = .ok st)
    (h9 : env.sendRawTransaction st.rawTransaction = .ok hb) :
    PolygonSDK.send_contract_transaction ⟨url, env⟩ pk ca abi fn args =
      ⟨.ok (some hb.hex),
       [.jsonLoads abi, .contractNew ca parsed, .getFunctionByName ca parsed fn,
        .applyArgs ca parsed fn args, .privateKeyToAccount pk,
        .getTransactionCount acct.address,
        .buildTransaction ca parsed fn args
          { chainId := some 137, gas := 2000000, gasPrice := toWei_gwei 20,
            nonce := n },
        .signTransaction built pk, .sendRawTransaction st.rawTransaction],
       [⟨.info, "Contract transaction sent: " ++ hb.hex⟩]⟩
    ∧ ((PolygonSDK.send_contract_transaction ⟨url, env⟩ pk ca abi fn args).calls.countP
        DepCall.isNonceQuery) = 1
    ∧ toWei_gwei 20 = 20000000000 := by
  have hmain :
      PolygonSDK.send_contract_transaction ⟨url, env⟩ pk ca abi fn args =
        ⟨.ok (some hb.hex),
         [.jsonLoads abi, .contractNew ca parsed, .getFunctionByName ca parsed fn,
          .applyArgs ca parsed fn args, .privateKeyToAccount pk,
          .getTransactionCount acct.address,
          .buildTransaction ca parsed fn args
            { chainId := some 137, gas := 2000000, gasPrice := toWei_gwei 20,
              nonce := n },
          .signTransaction built pk, .sendRawTransaction st.rawTransaction],
         [⟨.info, "Contract transaction sent: " ++ hb.hex⟩]⟩ := by
    simp [PolygonSDK.send_contract_transaction, pyBind, pyCall, pyTry, pyLog,
      pyret, catchAll, h1, h2, h3, h4, h5, h6, h7, h8, h9]
  refine ⟨hmain, ?_, rfl⟩
  rw [hmain]
  simp [DepCall.isNonceQuery, List.countP_cons]

/-- Witness for `send_contract_transaction_builds_fixed_params` on the
concrete all-success environment. -/
theorem send_contract_transaction_builds_fixed_params_witness :
    baseEnv.jsonLoads "[]" = .ok erc20Abi
    ∧ baseEnv.contractNew "0xC" erc20Abi = .ok ()
    ∧ baseEnv.get_function_by_name "0xC" erc20Abi "transfer" = .ok ()
    ∧ baseEnv.applyArgs "0xC" erc20Abi "transfer" [PyVal.int 5] = .ok ()
    ∧ baseEnv.privateKeyToAccount "pk" = .ok ⟨"0xSender"⟩
    ∧ baseEnv.eth_getTransactionCount "0xSender" = .ok 7
    ∧ baseEnv.buildTransaction "0xC" erc20Abi "transfer" [PyVal.int 5]
        { chainId := some 137, gas := 2000000, gasPrice := toWei_gwei 20,
          nonce := 7 }
      = .ok { chainId := some 137, to_addr := some "0xContract",
              data := some "0xcalldata", gas := 2000000,
              gasPrice := toWei_gwei 20, nonce := 7 }
    ∧ baseEnv.signTransaction
        { chainId := some 137, to_addr := some "0xContract",
          data := some "0xcalldata", gas := 2000000,
          gasPrice := toWei_gwei 20, nonce := 7 } "pk" = .ok ⟨[1, 2, 3]⟩
    ∧ baseEnv.sendRawTransaction [1, 2, 3] = .ok ⟨"0xdeadbeef"⟩
    ∧ (PolygonSDK.send_contract_transaction ⟨"u", baseEnv⟩ "pk" "0xC" "[]"
        "transfer" [PyVal.int 5]).res = .ok (some "0xdeadbeef")
    ∧ ((PolygonSDK.send_contract_transaction ⟨"u", baseEnv⟩ "pk" "0xC" "[]"
        "transfer" [PyVal.int 5]).calls.countP DepCall.isNonceQuery) = 1 := by
  have h := send_contract_transaction_builds_fixed_params "u" "pk" "0xC" "[]"
    "transfer" [PyVal.int 5] baseEnv erc20Abi ⟨"0xSender"⟩ 7
    { chainId := some 137, to_addr := some "0xContract",
      data := some "0xcalldata", gas := 2000000, gasPrice := toWei_gwei 20,
      nonce := 7 }
    ⟨[1, 2, 3]⟩ ⟨"0xdeadbeef"⟩ rfl rfl rfl rfl rfl rfl rfl rfl rfl
  exact ⟨rfl, rfl, rfl, rfl, rfl, rfl, rfl, rfl, rfl,
    by rw [h.1], h.2.1⟩

/-- C8: `call_contract_function` returns `None` with a logged error when the
ABI fails to parse, the contract object cannot be built, the function name
cannot be resolved, the argument application fails, or the call itself
raises (e.g. reverts); when every step succeeds it returns the decoded
value. -/
theorem call_contract_function_error_policy (url ca abi fn : String)
    (args : List PyVal) (env : Web3Env) :
    (∀ e : ExcKind, env.jsonLoads abi = .exc e →
      PolygonSDK.call_contract_function ⟨url, env⟩ ca abi fn args =
        ⟨.ok none, [.jsonLoads abi],
         [⟨.error, "Error calling contract function " ++ fn ++ ": " ++ excMsg e⟩]⟩)
    ∧ (∀ (parsed : Abi) (e : ExcKind), env.jsonLoads abi = .ok parsed →
        env.contractNew ca parsed = .exc e →
        PolygonSDK.call_contract_function ⟨url, env⟩ ca abi fn args =
          ⟨.ok none, [.jsonLoads abi, .contractNew ca parsed],
           [⟨.error, "Error calling contract function " ++ fn ++ ": " ++ excMsg e⟩]⟩)
    ∧ (∀ (parsed : Abi) (e : ExcKind), env.jsonLoads abi = .ok parsed →
        env.contractNew ca parsed = .ok () →
        env.get_function_by_name ca parsed fn = .exc e →
        PolygonSDK.call_contract_function ⟨url, env⟩ ca abi fn args =
          ⟨.ok none,
           [.jsonLoads abi, .contractNew ca parsed, .getFunctionByName ca parsed fn],
           [⟨.error, "Error calling contract function " ++ fn ++ ": " ++ excMsg e⟩]⟩)
    ∧ (∀ (parsed : Abi) (e : ExcKind), env.jsonLoads abi = .ok parsed →
        env.contractNew ca parsed = .ok () →
        env.get_function_by_name ca parsed fn = .ok () →
        env.applyArgs ca parsed fn args = .exc e →
        PolygonSDK.call_contract_function ⟨url, env⟩ ca abi fn args =
          ⟨.ok none,
           [.jsonLoads abi, .contractNew ca parsed, .getFunctionByName ca parsed fn,
            .applyArgs ca parsed fn args],
           [⟨.error, "Error calling contract function " ++ fn ++ ": " ++ excMsg e⟩]⟩)
    ∧ (∀ (parsed : Abi) (e : ExcKind), env.jsonLoads abi = .ok parsed →
        env.contractNew ca parsed = .ok () →
        env.get_function_by_name ca parsed fn = .ok () →
        env.applyArgs ca parsed fn args = .ok () →
        env.fn_call ca parsed fn args = .exc e →
        PolygonSDK.call_contract_function ⟨url, env⟩ ca abi fn args =
          ⟨.ok none,
           [.jsonLoads abi, .contractNew ca parsed, .getFunctionByName ca parsed fn,
            .applyArgs ca parsed fn args, .fnCall ca parsed fn args],
           [⟨.error, "Error calling contract function " ++ fn ++ ": " ++ excMsg e⟩]⟩)
    ∧ (∀ (parsed : Abi) (v : PyVal), env.jsonLoads abi = .ok parsed →
        env.contractNew ca parsed = .ok () →
        env.get_function_by_name ca parsed fn = .ok () →
        env.applyArgs ca parsed fn args = .ok () →
        env.fn_call ca parsed fn args = .ok v →
        PolygonSDK.call_contract_function ⟨url, env⟩ ca abi fn args =
          ⟨.ok (some v),
           [.jsonLoads abi, .contractNew ca parsed, .getFunctionByName ca parsed fn,
            .applyArgs ca parsed fn args, .fnCall ca parsed fn args], []⟩) := by
  refine ⟨?_, ?_, ?_, ?_, ?_, ?_⟩
  · intro e h1
    simp [PolygonSDK.call_contract_function, pyBind, pyCall, pyTry, catchAll, h1]
  · intro parsed e h1 h2
    simp [PolygonSDK.call_contract_function, pyBind, pyCall, pyTry, catchAll,
      h1, h2]
  · intro parsed e h1 h2 h3
    simp [PolygonSDK.call_contract_function, pyBind, pyCall, pyTry, catchAll,
      h1, h2, h3]
  · intro parsed e h1 h2 h3 h4
    simp [PolygonSDK.call_contract_function, pyBind, pyCall, pyTry, catchAll,
      h1, h2, h3, h4]
  · intro parsed e h1 h2 h3 h4 h5
    simp [PolygonSDK.call_contract_function, pyBind, pyCall, pyTry, catchAll,
      h1, h2, h3, h4, h5]
  · intro parsed v h1 h2 h3 h4 h5
    simp [PolygonSDK.call_contract_function, pyBind, pyCall, pyTry, catchAll,
      h1, h2, h3, h4, h5]

/-- Witness for `call_contract_function_error_policy`: the malformed-ABI case
and the full-success case on concrete environments. -/
theorem call_contract_function_error_policy_witness :
    badInputEnv.jsonLoads "not json" = .exc .jsonDecodeError
    ∧ PolygonSDK.call_contract_function ⟨"u", badInputEnv⟩ "0xC" "not json" "f" [] =
        ⟨.ok none, [.jsonLoads "not json"],
         [⟨.error,
           "Error calling contract function " ++ "f" ++ ": " ++ "JSONDecodeError"⟩]⟩
    ∧ baseEnv.fn_call "0xC" erc20Abi "f" [] = .ok (.int 1000000000000000000)
    ∧ PolygonSDK.call_contract_function ⟨"u", baseEnv⟩ "0xC" "[]" "f" [] =
        ⟨.ok (some (.int 1000000000000000000)),
         [.jsonLoads "[]", .contractNew "0xC" erc20Abi,
          .getFunctionByName "0xC" erc20Abi "f", .applyArgs "0xC" erc20Abi "f" [],
          .fnCall "0xC" erc20Abi "f" []], []⟩ :=
  ⟨rfl,
   (call_contract_function_error_policy "u" "0xC" "not json" "f" [] badInputEnv).1
     .jsonDecodeError rfl,
   rfl,
   (call_contract_function_error_policy "u" "0xC" "[]" "f" [] baseEnv).2.2.2.2.2
     erc20Abi (.int 1000000000000000000) rfl rfl rfl rfl rfl⟩

/-- C3: `get_erc20_balance` builds a single-function ABI describing
`balanceOf(address) -> uint256`, delegates to `call_contract_function` with
the wallet address as the sole positional argument, and returns exactly the
decoded integer of the contract call, with no decimal scaling. -/
theorem get_erc20_balance_delegates (url tok wal : String) (env : Web3Env) :
    PolygonSDK.get_erc20_balance ⟨url, env⟩ tok wal
      = PolygonSDK.call_contract_function ⟨url, env⟩ tok (dumpAbi erc20Abi)
          "balanceOf" [PyVal.str wal]
    ∧ erc20Abi.map AbiFunctionEntry.name = ["balanceOf"]
    ∧ erc20Abi.map (fun en => en.inputs.map AbiParam.type) = [["address"]]
    ∧ erc20Abi.map (fun en => en.outputs.map AbiParam.type) = [["uint256"]]
    ∧ (∀ (parsed : Abi) (v : Int),
        env.jsonLoads (dumpAbi erc20Abi) = .ok parsed →
        env.contractNew tok parsed = .ok () →
        env.get_function_by_name tok parsed "balanceOf" = .ok () →
        env.applyArgs tok parsed "balanceOf" [PyVal.str wal] = .ok () →
        env.fn_call tok parsed "balanceOf" [PyVal.str wal] = .ok (.int v) →
        (PolygonSDK.get_erc20_balance ⟨url, env⟩ tok wal).res
          = .ok (some (.int v))) := by
  refine ⟨get_erc20_eq_delegate url tok wal env, rfl, rfl, rfl, ?_⟩
  intro parsed v h1 h2 h3 h4 h5
  rw [get_erc20_eq_delegate url tok wal env]
  simp [PolygonSDK.call_contract_function, pyBind, pyCall, pyTry, catchAll,
    h1, h2, h3, h4, h5]

/-- Witness for `get_erc20_balance_delegates`: on the concrete all-success
environment the simulated call decodes to 10¹⁸ and the method returns
exactly that integer. -/
theorem get_erc20_balance_delegates_witness :
    baseEnv.jsonLoads (dumpAbi erc20Abi) = .ok erc20Abi
    ∧ baseEnv.contractNew "0xToken" erc20Abi = .ok ()
    ∧ baseEnv.get_function_by_name "0xToken" erc20Abi "balanceOf" = .ok ()
    ∧ baseEnv.applyArgs "0xToken" erc20Abi "balanceOf" [PyVal.str "0xWallet"] = .ok ()
    ∧ baseEnv.fn_call "0xToken" erc20Abi "balanceOf" [PyVal.str "0xWallet"]
        = .ok (.int 1000000000000000000)
    ∧ (PolygonSDK.get_erc20_balance ⟨"u", baseEnv⟩ "0xToken" "0xWallet").res
        = .ok (some (.int 1000000000000000000)) :=
  ⟨rfl, rfl, rfl, rfl, rfl,
   (get_erc20_balance_delegates "u" "0xToken" "0xWallet" baseEnv).2.2.2.2
     erc20Abi 1000000000000000000 rfl rfl rfl rfl rfl⟩

/-- C10: `get_erc20_balance` never raises — the delegated
`call_contract_function` catches every exception internally, so the outer
handler is unreachable; the method returns `None` exactly when the delegated
call failed, and the decoded value otherwise. -/
theorem get_erc20_balance_never_raises (url tok wal : String) (env : Web3Env) :
    (PolygonSDK.call_contract_function ⟨url, env⟩ tok (dumpAbi erc20Abi)
        "balanceOf" [PyVal.str wal]).res.isOk = true
    ∧ (PolygonSDK.get_erc20_balance ⟨url, env⟩ tok wal).res.isOk = true
    ∧ PolygonSDK.get_erc20_balance ⟨url, env⟩ tok wal
        = PolygonSDK.call_contract_function ⟨url, env⟩ tok (dumpAbi erc20Abi)
            "balanceOf" [PyVal.str wal]
    ∧ ((PolygonSDK.get_erc20_balance ⟨url, env⟩ tok wal).res = .ok none ↔
        (PolygonSDK.call_contract_function ⟨url, env⟩ tok (dumpAbi erc20Abi)
          "balanceOf" [PyVal.str wal]).res = .ok none) := by
  have hdel := get_erc20_eq_delegate url tok wal env
  have hok := call_contract_function_res_ok ⟨url, env⟩ tok (dumpAbi erc20Abi)
    "balanceOf" [PyVal.str wal]
  exact ⟨hok, by rw [hdel]; exact hok, hdel, by rw [hdel]⟩

/-- Witness for `get_erc20_balance_never_raises` on the concrete all-success
environment. -/
theorem get_erc20_balance_never_raises_witness :
    (PolygonSDK.get_erc20_balance ⟨"u", baseEnv⟩ "0xToken" "0xWallet").res.isOk
      = true
    ∧ ((PolygonSDK.get_erc20_balance ⟨"u", baseEnv⟩ "0xToken" "0xWallet").res
        = .ok none ↔
       (PolygonSDK.call_contract_function ⟨"u", baseEnv⟩ "0xToken"
          (dumpAbi erc20Abi) "balanceOf" [PyVal.str "0xWallet"]).res = .ok none) :=
  ⟨(get_erc20_balance_never_raises "u" "0xToken" "0xWallet" baseEnv).2.1,
   (get_erc20_balance_never_raises "u" "0xToken" "0xWallet" baseEnv).2.2.2⟩

/-- C9: no public operation mutates the SDK instance — the object state
after every call is the state at construction, and a `PolygonSDK` value
consists of exactly the stored provider URL and the RPC handle. -/
theorem sdk_state_unchanged (sdk : PolygonSDK) (b : BlockId)
    (txh a pk toA ca abi fn tok wal : String) (amt : Int) (args : List PyVal) :
    PolygonSDK.get_block_self_after sdk b = sdk
    ∧ PolygonSDK.get_transaction_self_after sdk txh = sdk
    ∧ PolygonSDK.get_balance_self_after sdk a = sdk
    ∧ PolygonSDK.send_transaction_self_after sdk pk toA amt = sdk
    ∧ PolygonSDK.call_contract_function_self_after sdk ca abi fn args = sdk
    ∧ PolygonSDK.send_contract_transaction_self_after sdk pk ca abi fn args = sdk
    ∧ PolygonSDK.get_erc20_balance_self_after sdk tok wal = sdk
    ∧ (∀ s t : PolygonSDK, s.provider_url = t.provider_url → s.web3 = t.web3 →
        s = t) := by
  refine ⟨rfl, rfl, rfl, rfl, rfl, rfl, rfl, ?_⟩
  intro s t h1 h2
  cases s
  cases t
  simp_all

/-- Witness for `sdk_state_unchanged` at a concrete instance. -/
theorem sdk_state_unchanged_witness :
    PolygonSDK.get_block_self_after ⟨"u", baseEnv⟩ (.num 3) = ⟨"u", baseEnv⟩
    ∧ PolygonSDK.send_transaction_self_after ⟨"u", baseEnv⟩ "pk" "0xTo" 5
        = ⟨"u", baseEnv⟩
    ∧ (⟨"u", baseEnv⟩ : PolygonSDK) = ⟨"u", baseEnv⟩ :=
  ⟨(sdk_state_unchanged ⟨"u", baseEnv⟩ (.num 3) "h" "a" "pk" "0xTo" "ca" "abi"
      "fn" "tok" "wal" 5 []).1,
   (sdk_state_unchanged ⟨"u", baseEnv⟩ (.num 3) "h" "a" "pk" "0xTo" "ca" "abi"
      "fn" "tok" "wal" 5 []).2.2.2.1,
   (sdk_state_unchanged ⟨"u", baseEnv⟩ (.num 3) "h" "a" "pk" "0xTo" "ca" "abi"
      "fn" "tok" "wal" 5 []).2.2.2.2.2.2.2 ⟨"u", baseEnv⟩ ⟨"u", baseEnv⟩ rfl rfl⟩
